import Mathlib

set_option linter.unusedVariables false

/-!
Shallow embedding of the tronstore supervisor protocol
(`tron/serialize/runstate/tronstore/process.py`) and of the chained
command-context lookup (`tron/command_context.py`).

The worker process and the pipe are modelled explicitly: the pipe's incoming
side is a list of `(delay, response)` pairs, where `delay` is the time between
the previous read (or the start of polling) and the arrival of that response;
`pipe.poll(timeout)` succeeds when the next delay is at most `timeout` and
otherwise blocks for the full `timeout` and fails.  Spawning a worker draws
the next `ProcessHandle` from an environment-supplied sequence, so crashed
spawns and successful spawns can both be described.  Every operation returns,
besides its result and updated state, the ordered list of observable effects
(log lines, channel writes, pipe close, kill, flag assignment), which lets the
ordering claims of the spec be stated about traces.
-/

/-- A request sent to tronstore: a correlation id and its serialized bytes. -/
structure StoreRequest where
  id : Nat
  serialized : String
deriving DecidableEq, Repr

/-- A response from tronstore: correlation id, success flag, payload. -/
structure StoreResponse where
  id : Nat
  success : Bool
  data : String
deriving DecidableEq, Repr

/-- `response_factory.build(success, id, data)`. -/
def ResponseFactory.build (success : Bool) (id : Nat) (data : String) : StoreResponse :=
  { id := id, success := success, data := data }

/-- The `orphaned_responses` dict, keyed by response id. -/
abbrev OrphanBuffer := List (Nat × StoreResponse)

/-- Dict membership / lookup: `self.orphaned_responses[id]`. -/
def orphanLookup : OrphanBuffer → Nat → Option StoreResponse
  | [], _ => none
  | (k, r) :: rest, id => if k = id then some r else orphanLookup rest id

/-- Dict deletion: `del self.orphaned_responses[id]`. -/
def orphanErase : OrphanBuffer → Nat → OrphanBuffer
  | [], _ => []
  | (k, r) :: rest, id =>
    if k = id then orphanErase rest id else (k, r) :: orphanErase rest id

/-- Dict assignment: `self.orphaned_responses[response.id] = response`
(overwrites any prior entry under the same key). -/
def orphanInsert (b : OrphanBuffer) (id : Nat) (r : StoreResponse) : OrphanBuffer :=
  (id, r) :: orphanErase b id

/-- The incoming side of the pipe: responses the worker will deliver, each
tagged with the delay since the previous read event. -/
abbrev Channel := List (ℚ × StoreResponse)

/-- The OS-level handle for a spawned tronstore process. -/
structure ProcessHandle where
  alive : Bool
  exitcode : Int
  pid : Nat
deriving DecidableEq, Repr

/-- The world outside the protocol object: what each successive spawn yields,
what arrives on the pipe, and a clock advanced by blocking polls. -/
structure Env where
  spawnResult : Nat → ProcessHandle
  spawnCount : Nat
  incoming : Channel
  now : ℚ

/-- `TronStoreError`: raised when tronstore crashes and fails to restart.
In the source its single field `code` is the formatted message string. -/
structure TronStoreError where
  code : String
deriving DecidableEq, Repr

/-- Observable side effects of the protocol operations, in order. -/
inductive Effect where
  | startProcess
  | logWarn (msg : String)
  | logError (msg : String)
  | sendBytes (bytes : String)
  | setShutdown
  | closePipe
  | kill (pid : Nat)
deriving DecidableEq, Repr

/-- The supervisor object `StoreProcessProtocol`, with its mutable fields. -/
structure StoreProcessProtocol (Cfg : Type) where
  config : Cfg
  orphaned_responses : OrphanBuffer
  is_shutdown : Bool
  process : ProcessHandle
  pipe_open : Bool

namespace StoreProcessProtocol

variable {Cfg : Type}

/-- `SHUTDOWN_TIMEOUT = 100.0` (exact decimal, modelled in ℚ). -/
def SHUTDOWN_TIMEOUT : ℚ := 100

/-- `POLL_TIMEOUT = 10.0` (exact decimal, modelled in ℚ). -/
def POLL_TIMEOUT : ℚ := 10

/-- `_start_process`: spawn a fresh worker and pipe pair.  Only the
`process`/`pipe` fields change; the environment hands out the next handle. -/
def start_process (s : StoreProcessProtocol Cfg) (env : Env) :
    StoreProcessProtocol Cfg × Env × List Effect :=
  ({ s with process := env.spawnResult env.spawnCount, pipe_open := true },
   { env with spawnCount := env.spawnCount + 1 },
   [Effect.startProcess])

/-- `__init__`: set `orphaned_responses = {}`, `is_shutdown = False`, record
the config, then `_start_process`. -/
def init (config : Cfg) (env : Env) : StoreProcessProtocol Cfg × Env × List Effect :=
  start_process
    { config := config
      orphaned_responses := []
      is_shutdown := false
      process := { alive := false, exitcode := 0, pid := 0 }
      pipe_open := false }
    env

/-- `_verify_is_alive`: if the worker died, log its exit code and respawn
once; if the respawned worker is still not alive, raise `TronStoreError`
formatted from the original exit code. -/
def verify_is_alive (s : StoreProcessProtocol Cfg) (env : Env) :
    Except TronStoreError (StoreProcessProtocol Cfg × Env) × List Effect :=
  if s.process.alive then (.ok (s, env), [])
  else
    let code := s.process.exitcode
    let warn := Effect.logWarn
      ("tronstore exited prematurely with status code " ++ toString code
        ++ ". Attempting to restart.")
    match start_process s env with
    | (s1, env1, eff) =>
      if s1.process.alive then (.ok (s1, env1), warn :: eff)
      else
        (.error { code := "tronstore crashed with status code " ++ toString code
                    ++ " and failed to restart" },
         warn :: eff)

/-- `send_request`: fire-and-forget.  Returns immediately when shut down;
otherwise verifies liveness and writes the serialized request to the pipe. -/
def send_request (s : StoreProcessProtocol Cfg) (env : Env) (request : StoreRequest) :
    Except TronStoreError (StoreProcessProtocol Cfg × Env) × List Effect :=
  if s.is_shutdown then (.ok (s, env), [])
  else
    match verify_is_alive s env with
    | (.error e, eff) => (.error e, eff)
    | (.ok (s1, env1), eff) =>
      (.ok (s1, env1), eff ++ [Effect.sendBytes request.serialized])

/-- The `while self.pipe.poll(timeout):` loop of `_poll_for_response`.  Each
iteration passes the same constant `timeout` to `poll`; a response arriving
within `timeout` of the previous read is consumed (matching id returns it,
otherwise it is stored as an orphan and polling continues); when no response
arrives within `timeout`, the loop blocks for the full `timeout` and returns
`None`.  The final component is the total time spent blocked. -/
def pollLoop (id : Nat) (timeout : ℚ) :
    Channel → OrphanBuffer → ℚ → Option StoreResponse × OrphanBuffer × Channel × ℚ
  | [], orphans, elapsed => (none, orphans, [], elapsed + timeout)
  | (d, r) :: rest, orphans, elapsed =>
    if d ≤ timeout then
      if r.id = id then (some r, orphans, rest, elapsed + d)
      else pollLoop id timeout rest (orphanInsert orphans r.id r) (elapsed + d)
    else (none, orphans, (d, r) :: rest, elapsed + timeout)

/-- `_poll_for_response`: first consult the orphan buffer (removing a hit and
returning it with no channel I/O and no blocking), then run the poll loop. -/
def poll_for_response (id : Nat) (timeout : ℚ) (chan : Channel) (orphans : OrphanBuffer) :
    Option StoreResponse × OrphanBuffer × Channel × ℚ :=
  match orphanLookup orphans id with
  | some response => (some response, orphanErase orphans id, chan, 0)
  | none => pollLoop id timeout chan orphans 0

/-- `send_request_get_response`: synchronous round trip.  When shut down,
immediately build a failure response for the request's id; otherwise verify
liveness, write the request, poll with `POLL_TIMEOUT`, and on a missing
response log a warning and build the synthetic failure response. -/
def send_request_get_response (s : StoreProcessProtocol Cfg) (env : Env)
    (request : StoreRequest) :
    Except TronStoreError (StoreResponse × StoreProcessProtocol Cfg × Env) × List Effect :=
  if s.is_shutdown then
    (.ok (ResponseFactory.build false request.id "", s, env), [])
  else
    match verify_is_alive s env with
    | (.error e, eff) => (.error e, eff)
    | (.ok (s1, env1), eff) =>
      match poll_for_response request.id POLL_TIMEOUT env1.incoming s1.orphaned_responses with
      | (res, orphans1, chan1, elapsed) =>
        let s2 := { s1 with orphaned_responses := orphans1 }
        let env2 := { env1 with incoming := chan1, now := env1.now + elapsed }
        match res with
        | none =>
          (.ok (ResponseFactory.build false request.id "", s2, env2),
           eff ++ [Effect.sendBytes request.serialized,
                   Effect.logWarn
                     "tronstore took longer than 10 seconds to respond to a request, and it was dropped."])
        | some response =>
          (.ok (response, s2, env2), eff ++ [Effect.sendBytes request.serialized])

/-- `send_request_shutdown`: if already shut down or the worker is already
dead, close the pipe, latch `is_shutdown`, and return.  Otherwise latch
`is_shutdown` first, write the shutdown request, poll with
`SHUTDOWN_TIMEOUT`, log (never raise) on a missing or unsuccessful response,
then unconditionally close the pipe and SIGKILL the worker. -/
def send_request_shutdown (s : StoreProcessProtocol Cfg) (env : Env)
    (request : StoreRequest) : StoreProcessProtocol Cfg × Env × List Effect :=
  if s.is_shutdown || !s.process.alive then
    ({ s with pipe_open := false, is_shutdown := true }, env, [Effect.closePipe])
  else
    let s1 := { s with is_shutdown := true }
    match poll_for_response request.id SHUTDOWN_TIMEOUT env.incoming s1.orphaned_responses with
    | (res, orphans1, chan1, elapsed) =>
      let env1 := { env with incoming := chan1, now := env.now + elapsed }
      let errEff :=
        match res with
        | none => [Effect.logError "tronstore failed to shut down cleanly."]
        | some response =>
          if response.success then []
          else [Effect.logError "tronstore failed to shut down cleanly."]
      let s2 :=
        { s1 with
          orphaned_responses := orphans1
          pipe_open := false
          process := { s1.process with alive := false } }
      (s2, env1,
       [Effect.setShutdown, Effect.sendBytes request.serialized] ++ errEff
         ++ [Effect.closePipe, Effect.kill s.process.pid])

/-- `update_config`: fire-and-forget send of the config request, then an
unconditional local update of the tracked config (skipped when the send
raises, since the exception propagates before the assignment). -/
def update_config (s : StoreProcessProtocol Cfg) (env : Env)
    (new_config : Cfg) (config_request : StoreRequest) :
    Except TronStoreError (StoreProcessProtocol Cfg × Env) × List Effect :=
  match send_request s env config_request with
  | (.error e, eff) => (.error e, eff)
  | (.ok (s1, env1), eff) => (.ok ({ s1 with config := new_config }, env1), eff)

end StoreProcessProtocol

/-!
Embedding of `tron/command_context.py`: `CommandContext.__getitem__` tries,
in order, `base[name]`, `attrgetter(name)(base)`, `next[name]`,
`attrgetter(name)(next)`; `KeyError`, `TypeError` and `AttributeError` fall
through to the next attempt, any other exception propagates, and when all
four fail `KeyError(name)` is raised.  A Python lookup target is modelled by
its two behaviours: subscription (`operator.itemgetter(name)`) and dotted
attribute traversal (`operator.attrgetter(name)`), each of which either
yields a value or raises. -/

/-- A Python exception, as far as `CommandContext` can observe one. -/
inductive PyErr where
  | keyError (name : String)
  | typeError
  | attributeError
  | other (msg : String)
deriving DecidableEq, Repr

/-- Is this exception in the `except (KeyError, TypeError, AttributeError)`
clause of `CommandContext.__getitem__`? -/
def PyErr.swallowedByGetitem : PyErr → Bool
  | .keyError _ => true
  | .typeError => true
  | .attributeError => true
  | .other _ => false

/-- A lookup target (the `base` or `next` object of a `CommandContext`):
`getItem name` is `target[name]`, `getAttrPath name` is
`operator.attrgetter(name)(target)` (which follows dotted paths). -/
structure PyObject (V : Type) where
  getItem : String → Except PyErr V
  getAttrPath : String → Except PyErr V

/-- A `CommandContext`: a `base` object and a `next` place to look. -/
structure CommandContext (V : Type) where
  base : PyObject V
  next : PyObject V

/-- The two nested loops of `__getitem__`, flattened into the list of
attempts in the order they are tried: the first success wins, an exception in
the swallowed set falls through, and any other exception propagates; when
the attempts are exhausted, `KeyError(name)` is raised. -/
def firstHit {V : Type} (name : String) : List (Except PyErr V) → Except PyErr V
  | [] => .error (.keyError name)
  | a :: rest =>
    match a with
    | .ok v => .ok v
    | .error e => if e.swallowedByGetitem then firstHit name rest else .error e

/-- `CommandContext.__getitem__`: the attempts are
`base[name]`, `base.<name path>`, `next[name]`, `next.<name path>`. -/
def CommandContext.getitem {V : Type} (c : CommandContext V) (name : String) :
    Except PyErr V :=
  firstHit name
    [c.base.getItem name, c.base.getAttrPath name,
     c.next.getItem name, c.next.getAttrPath name]

/-- `CommandContext.get(name, default)`: call `__getitem__` and turn a
`KeyError` (only) into the default. -/
def CommandContext.get {V : Type} (c : CommandContext V) (name : String)
    (default : V) : Except PyErr V :=
  match c.getitem name with
  | .error (.keyError _) => .ok default
  | r => r

/-!  Concrete instantiations used to exercise the definitions. -/

/-- A worker handle that is alive. -/
def exAlive : ProcessHandle := { alive := true, exitcode := 0, pid := 7 }

/-- A second live worker handle, standing for a respawned worker. -/
def exAlive2 : ProcessHandle := { alive := true, exitcode := 0, pid := 8 }

/-- A worker handle that has exited with status code 3. -/
def exDead : ProcessHandle := { alive := false, exitcode := 3, pid := 7 }

/-- An environment whose spawns all come up alive and whose pipe is silent. -/
def exEnv : Env := { spawnResult := fun _ => exAlive2, spawnCount := 0, incoming := [], now := 0 }

/-- An environment whose spawns all come up dead. -/
def exEnvDeadSpawn : Env :=
  { spawnResult := fun _ => exDead, spawnCount := 0, incoming := [], now := 0 }

/-- A protocol state with a live worker, not shut down, no orphans. -/
def exStateLive : StoreProcessProtocol Nat :=
  { config := 0, orphaned_responses := [], is_shutdown := false,
    process := exAlive, pipe_open := true }

/-- A protocol state that has been shut down. -/
def exStateShut : StoreProcessProtocol Nat :=
  { config := 0, orphaned_responses := [], is_shutdown := true,
    process := exAlive, pipe_open := true }

/-- A protocol state whose worker has died with status code 3. -/
def exStateDead : StoreProcessProtocol Nat :=
  { config := 0, orphaned_responses := [], is_shutdown := false,
    process := exDead, pipe_open := true }

/-- A concrete request with correlation id 1. -/
def exReq : StoreRequest := { id := 1, serialized := "req" }

/-- A concrete response for id 1 ("request A's response"). -/
def exRespA : StoreResponse := { id := 1, success := true, data := "A" }

/-- A concrete response for id 2 ("request B's response"). -/
def exRespB : StoreResponse := { id := 2, success := true, data := "B" }

/-- A channel delivering two non-matching responses, each arriving exactly at
the poll timeout boundary. -/
def chanTwoOrphans : Channel :=
  [(10, { id := 2, success := true, data := "x" }),
   (10, { id := 3, success := true, data := "y" })]

/-- `exEnv` with `chanTwoOrphans` on the pipe. -/
def exEnvTwoOrphans : Env :=
  { spawnResult := fun _ => exAlive2, spawnCount := 0, incoming := chanTwoOrphans, now := 0 }

/-- A lookup target whose subscription succeeds. -/
def exObjItem : PyObject Nat :=
  { getItem := fun _ => .ok 11, getAttrPath := fun _ => .error .attributeError }

/-- A lookup target that is not subscriptable but has the attribute. -/
def exObjAttr : PyObject Nat :=
  { getItem := fun _ => .error .typeError, getAttrPath := fun _ => .ok 22 }

/-- A lookup target on which every attempt fails with a swallowed error. -/
def exObjFail : PyObject Nat :=
  { getItem := fun n => .error (.keyError n), getAttrPath := fun _ => .error .attributeError }

/-!  Helper lemmas about the orphan buffer and the poll loop. -/

theorem orphanLookup_insert_self (b : OrphanBuffer) (id : Nat) (r : StoreResponse) :
    orphanLookup (orphanInsert b id r) id = some r := by
  simp [orphanInsert, orphanLookup]

theorem orphanLookup_erase_self (b : OrphanBuffer) (id : Nat) :
    orphanLookup (orphanErase b id) id = none := by
  induction b with
  | nil => rfl
  | cons p rest ih =>
    obtain ⟨k, r⟩ := p
    by_cases h : k = id
    · simpa [orphanErase, h] using ih
    · simp [orphanErase, orphanLookup, h, ih]

theorem orphanLookup_erase_ne (b : OrphanBuffer) (id j : Nat) (h : j ≠ id) :
    orphanLookup (orphanErase b id) j = orphanLookup b j := by
  induction b with
  | nil => rfl
  | cons p rest ih =>
    obtain ⟨k, r'⟩ := p
    by_cases hk : k = id
    · have hij : ¬id = j := fun hj => h hj.symm
      simp [orphanErase, hk, orphanLookup, hij, ih]
    · simp [orphanErase, hk, orphanLookup, ih]

theorem orphanLookup_insert_ne (b : OrphanBuffer) (id j : Nat) (r : StoreResponse)
    (h : j ≠ id) : orphanLookup (orphanInsert b id r) j = orphanLookup b j := by
  have hij : ¬id = j := fun hj => h hj.symm
  simp [orphanInsert, orphanLookup, hij, orphanLookup_erase_ne b id j h]

theorem pollLoop_none_of_no_match (id : Nat) (t : ℚ) (chan : Channel) :
    ∀ (orphans : OrphanBuffer) (e : ℚ),
      (∀ p ∈ chan, (p : ℚ × StoreResponse).2.id ≠ id) →
      (StoreProcessProtocol.pollLoop id t chan orphans e).1 = none := by
  induction chan with
  | nil => intro orphans e _; rfl
  | cons p rest ih =>
    intro orphans e h
    obtain ⟨d, r⟩ := p
    have hr : r.id ≠ id := h (d, r) (by simp)
    by_cases hd : d ≤ t
    · simpa [StoreProcessProtocol.pollLoop, hd, hr] using
        ih (orphanInsert orphans r.id r) (e + d) (fun q hq => h q (by simp [hq]))
    · simp [StoreProcessProtocol.pollLoop, hd]

theorem pollLoop_elapsed_le (id : Nat) (t : ℚ) (ht : 0 ≤ t) (chan : Channel) :
    ∀ (orphans : OrphanBuffer) (e : ℚ),
      (StoreProcessProtocol.pollLoop id t chan orphans e).2.2.2 ≤
        e + (chan.length + 1 : ℚ) * t := by
  induction chan with
  | nil =>
    intro orphans e
    have hnil : (StoreProcessProtocol.pollLoop id t [] orphans e).2.2.2 = e + t := rfl
    rw [hnil]
    simp
  | cons p rest ih =>
    intro orphans e
    obtain ⟨d, r⟩ := p
    have hlen : (0 : ℚ) ≤ (rest.length : ℚ) := by positivity
    by_cases hd : d ≤ t
    · by_cases hr : r.id = id
      · simp [StoreProcessProtocol.pollLoop, hd, hr]
        nlinarith
      · simp only [StoreProcessProtocol.pollLoop, if_pos hd, if_neg hr]
        have := ih (orphanInsert orphans r.id r) (e + d)
        simp only [List.length_cons]
        push_cast at this ⊢
        nlinarith
    · simp [StoreProcessProtocol.pollLoop, hd]
      nlinarith

/-!  Claim theorems (and the frame/latch helper lemmas they build on). -/

theorem verify_is_alive_ok_frame {Cfg : Type} (s : StoreProcessProtocol Cfg) (env : Env)
    (s1 : StoreProcessProtocol Cfg) (env1 : Env)
    (h : (StoreProcessProtocol.verify_is_alive s env).1 = .ok (s1, env1)) :
    s1.orphaned_responses = s.orphaned_responses ∧ s1.config = s.config ∧
      s1.is_shutdown = s.is_shutdown := by
  by_cases ha : s.process.alive
  · simp [StoreProcessProtocol.verify_is_alive, ha] at h
    obtain ⟨h1, h2⟩ := h
    rw [← h1]
    exact ⟨rfl, rfl, rfl⟩
  · simp only [StoreProcessProtocol.verify_is_alive, ha, if_false, Bool.false_eq_true,
      StoreProcessProtocol.start_process] at h
    split at h
    · simp only [Except.ok.injEq, Prod.mk.injEq] at h
      obtain ⟨h1, h2⟩ := h
      rw [← h1]
      exact ⟨rfl, rfl, rfl⟩
    · simp at h

theorem send_request_ok_frame {Cfg : Type} (s : StoreProcessProtocol Cfg) (env : Env)
    (request : StoreRequest) (s1 : StoreProcessProtocol Cfg) (env1 : Env)
    (h : (StoreProcessProtocol.send_request s env request).1 = .ok (s1, env1)) :
    s1.is_shutdown = s.is_shutdown := by
  by_cases hs : s.is_shutdown
  · simp [StoreProcessProtocol.send_request, hs] at h
    obtain ⟨h1, h2⟩ := h
    rw [← h1]
  · simp only [StoreProcessProtocol.send_request, hs, Bool.false_eq_true, if_false] at h
    rcases hv : StoreProcessProtocol.verify_is_alive s env with ⟨res, eff⟩
    rw [hv] at h
    cases res with
    | error e => simp at h
    | ok p =>
      obtain ⟨s2, env2⟩ := p
      simp only [Except.ok.injEq, Prod.mk.injEq] at h
      obtain ⟨h1, h2⟩ := h
      rw [← h1]
      exact (verify_is_alive_ok_frame s env s2 env2 (by rw [hv])).2.2

theorem send_request_get_response_ok_frame {Cfg : Type} (s : StoreProcessProtocol Cfg)
    (env : Env) (request : StoreRequest) (r : StoreResponse)
    (s1 : StoreProcessProtocol Cfg) (env1 : Env)
    (h : (StoreProcessProtocol.send_request_get_response s env request).1 = .ok (r, s1, env1)) :
    s1.is_shutdown = s.is_shutdown := by
  by_cases hs : s.is_shutdown
  · simp [StoreProcessProtocol.send_request_get_response, hs] at h
    obtain ⟨h0, h1, h2⟩ := h
    rw [← h1]
  · simp only [StoreProcessProtocol.send_request_get_response, hs, Bool.false_eq_true,
      if_false] at h
    rcases hv : StoreProcessProtocol.verify_is_alive s env with ⟨res, eff⟩
    rw [hv] at h
    cases res with
    | error e => simp at h
    | ok p =>
      obtain ⟨s2, env2⟩ := p
      have hfr := (verify_is_alive_ok_frame s env s2 env2 (by rw [hv])).2.2
      dsimp only at h
      rcases hp : StoreProcessProtocol.poll_for_response request.id
          StoreProcessProtocol.POLL_TIMEOUT env2.incoming s2.orphaned_responses with
        ⟨pres, o1, c1, el⟩
      rw [hp] at h
      cases pres with
      | none =>
        simp only [Except.ok.injEq, Prod.mk.injEq] at h
        obtain ⟨h0, h1, h2⟩ := h
        rw [← h1]
        exact hfr
      | some resp =>
        simp only [Except.ok.injEq, Prod.mk.injEq] at h
        obtain ⟨h0, h1, h2⟩ := h
        rw [← h1]
        exact hfr

theorem poll_for_response_elapsed_le (id : Nat) (t : ℚ) (chan : Channel)
    (orphans : OrphanBuffer) (ht : 0 ≤ t) :
    (StoreProcessProtocol.poll_for_response id t chan orphans).2.2.2 ≤
      (chan.length + 1 : ℚ) * t := by
  unfold StoreProcessProtocol.poll_for_response
  cases horph : orphanLookup orphans id with
  | none =>
    simpa using pollLoop_elapsed_le id t ht chan orphans 0
  | some r =>
    simp only
    have hpos : (0 : ℚ) ≤ (chan.length + 1 : ℚ) * t := by
      apply mul_nonneg _ ht
      positivity
    exact hpos

/-- C8: the shutdown wait bound is an order of magnitude larger than the
standard request timeout: `SHUTDOWN_TIMEOUT = 100.0` is exactly ten times
`POLL_TIMEOUT = 10.0`. -/
theorem c8_shutdown_timeout_ten_times_poll_timeout :
    StoreProcessProtocol.SHUTDOWN_TIMEOUT = 10 * StoreProcessProtocol.POLL_TIMEOUT ∧
    StoreProcessProtocol.SHUTDOWN_TIMEOUT = 100 ∧
    StoreProcessProtocol.POLL_TIMEOUT = 10 := by
  refine ⟨?_, rfl, rfl⟩
  norm_num [StoreProcessProtocol.SHUTDOWN_TIMEOUT, StoreProcessProtocol.POLL_TIMEOUT]

/-- C4: post-shutdown operations are inert.  When `is_shutdown` is true,
`send_request` returns with the state and environment untouched and an empty
effect trace (no liveness check, no restart, no channel write), and
`send_request_get_response` immediately returns the synthetic failure
response (`success = false`, the request's id, empty data) with an empty
effect trace. -/
theorem c4_post_shutdown_inert {Cfg : Type} (s : StoreProcessProtocol Cfg) (env : Env)
    (request : StoreRequest) (h : s.is_shutdown = true) :
    StoreProcessProtocol.send_request s env request = (.ok (s, env), []) ∧
    StoreProcessProtocol.send_request_get_response s env request =
      (.ok ({ id := request.id, success := false, data := "" }, s, env), []) := by
  constructor
  · simp [StoreProcessProtocol.send_request, h]
  · simp [StoreProcessProtocol.send_request_get_response, h, ResponseFactory.build]

/-- Witness for C4 at a concrete shut-down state. -/
theorem c4_post_shutdown_inert_witness :
    StoreProcessProtocol.send_request exStateShut exEnv exReq = (.ok (exStateShut, exEnv), []) ∧
    StoreProcessProtocol.send_request_get_response exStateShut exEnv exReq =
      (.ok ({ id := exReq.id, success := false, data := "" }, exStateShut, exEnv), []) :=
  c4_post_shutdown_inert exStateShut exEnv exReq rfl

/-- C9: spawning a fresh worker/pipe pair is frame-preserving on supervisor
state: `_start_process` (used both by `__init__` and by the restart in
`_verify_is_alive`) leaves the orphan buffer, the tracked config, and the
`is_shutdown` latch unchanged, so buffered orphans remain retrievable; and a
successful `_verify_is_alive` (with or without a restart) does the same. -/
theorem c9_restart_preserves_supervisor_state {Cfg : Type}
    (s : StoreProcessProtocol Cfg) (env : Env) :
    ((StoreProcessProtocol.start_process s env).1.orphaned_responses = s.orphaned_responses ∧
     (StoreProcessProtocol.start_process s env).1.config = s.config ∧
     (StoreProcessProtocol.start_process s env).1.is_shutdown = s.is_shutdown) ∧
    (∀ i, orphanLookup (StoreProcessProtocol.start_process s env).1.orphaned_responses i =
        orphanLookup s.orphaned_responses i) ∧
    (∀ s1 env1, (StoreProcessProtocol.verify_is_alive s env).1 = .ok (s1, env1) →
      s1.orphaned_responses = s.orphaned_responses ∧ s1.config = s.config ∧
        s1.is_shutdown = s.is_shutdown) := by
  refine ⟨⟨rfl, rfl, rfl⟩, fun i => rfl, ?_⟩
  intro s1 env1 h
  by_cases ha : s.process.alive
  · simp [StoreProcessProtocol.verify_is_alive, ha] at h
    obtain ⟨h1, h2⟩ := h
    rw [← h1]
    exact ⟨rfl, rfl, rfl⟩
  · simp only [StoreProcessProtocol.verify_is_alive, ha, if_false, Bool.false_eq_true,
      StoreProcessProtocol.start_process] at h
    split at h
    · simp only [Except.ok.injEq, Prod.mk.injEq] at h
      obtain ⟨h1, h2⟩ := h
      rw [← h1]
      exact ⟨rfl, rfl, rfl⟩
    · simp at h

/-- Witness for C9: a dead worker is respawned and the supervisor state
survives the restart. -/
theorem c9_restart_preserves_supervisor_state_witness :
    ((StoreProcessProtocol.start_process exStateDead exEnv).1.orphaned_responses =
        exStateDead.orphaned_responses ∧
     (StoreProcessProtocol.start_process exStateDead exEnv).1.config = exStateDead.config ∧
     (StoreProcessProtocol.start_process exStateDead exEnv).1.is_shutdown =
        exStateDead.is_shutdown) ∧
    ({ exStateDead with process := exAlive2, pipe_open := true } :
        StoreProcessProtocol Nat).orphaned_responses = exStateDead.orphaned_responses := by
  refine ⟨(c9_restart_preserves_supervisor_state exStateDead exEnv).1, ?_⟩
  exact ((c9_restart_preserves_supervisor_state exStateDead exEnv).2.2
    { exStateDead with process := exAlive2, pipe_open := true }
    { exEnv with spawnCount := 1 } rfl).1

/-- C5: double-crash is fatal after exactly one restart attempt.  When the
worker is found dead, `_verify_is_alive` logs the original exit code, spawns
exactly once (the trace holds exactly one `startProcess`), and — if the
respawned worker is still not alive — raises a `TronStoreError` whose message
carries the original exit code; if the respawn is alive it returns normally. -/
theorem c5_double_crash_fatal {Cfg : Type} (s : StoreProcessProtocol Cfg) (env : Env)
    (hdead : s.process.alive = false) :
    (StoreProcessProtocol.verify_is_alive s env).2 =
      [Effect.logWarn ("tronstore exited prematurely with status code "
          ++ toString s.process.exitcode ++ ". Attempting to restart."),
       Effect.startProcess] ∧
    ((env.spawnResult env.spawnCount).alive = false →
      (StoreProcessProtocol.verify_is_alive s env).1 =
        .error { code := "tronstore crashed with status code "
            ++ toString s.process.exitcode ++ " and failed to restart" }) ∧
    ((env.spawnResult env.spawnCount).alive = true →
      (StoreProcessProtocol.verify_is_alive s env).1 =
        .ok ({ s with process := env.spawnResult env.spawnCount, pipe_open := true },
             { env with spawnCount := env.spawnCount + 1 })) ∧
    (StoreProcessProtocol.verify_is_alive s env).2.countP
      (fun eff => decide (eff = Effect.startProcess)) = 1 := by
  refine ⟨?_, ?_, ?_, ?_⟩
  · simp only [StoreProcessProtocol.verify_is_alive, hdead, Bool.false_eq_true, if_false,
      StoreProcessProtocol.start_process]
    split <;> rfl
  · intro hspawn
    simp [StoreProcessProtocol.verify_is_alive, hdead, StoreProcessProtocol.start_process, hspawn]
  · intro hspawn
    simp [StoreProcessProtocol.verify_is_alive, hdead, StoreProcessProtocol.start_process, hspawn]
  · simp only [StoreProcessProtocol.verify_is_alive, hdead, Bool.false_eq_true, if_false,
      StoreProcessProtocol.start_process]
    split <;> rfl

/-- Witness for C5: a worker dead with exit code 3, in an environment whose
respawn also comes up dead (fatal branch) and in one whose respawn comes up
alive (recovered branch). -/
theorem c5_double_crash_fatal_witness :
    ((StoreProcessProtocol.verify_is_alive exStateDead exEnvDeadSpawn).1 =
      .error { code := "tronstore crashed with status code 3 and failed to restart" } ∧
     (StoreProcessProtocol.verify_is_alive exStateDead exEnvDeadSpawn).2.countP
       (fun eff => decide (eff = Effect.startProcess)) = 1) ∧
    (StoreProcessProtocol.verify_is_alive exStateDead exEnv).1 =
      .ok ({ exStateDead with process := exAlive2, pipe_open := true },
           { exEnv with spawnCount := 1 }) := by
  refine ⟨⟨?_, (c5_double_crash_fatal exStateDead exEnvDeadSpawn rfl).2.2.2⟩, ?_⟩
  · exact (c5_double_crash_fatal exStateDead exEnvDeadSpawn rfl).2.1 rfl
  · have h := (c5_double_crash_fatal exStateDead exEnv rfl).2.2.1 rfl
    exact h

/-- C1: id-exact matching with orphan buffering, for `_poll_for_response`:
a buffered orphan under the wanted id is removed (exactly once) and returned
with no channel read and no blocking; a polled response with the wanted id is
returned immediately; a polled response with a different id is stored in the
orphan buffer (overwriting any prior entry under that id) and polling
continues; and in the reordering scenario — worker answers B (id `b`) before
A (id `a`) — waiting on `a` returns A's response while buffering B's, and a
later wait on `b` returns B's response without reading the channel. -/
theorem c1_id_exact_matching_with_orphan_buffering :
    (∀ (t : ℚ) (chan : Channel) (orphans : OrphanBuffer) (id : Nat) (r : StoreResponse),
      orphanLookup orphans id = some r →
      StoreProcessProtocol.poll_for_response id t chan orphans =
        (some r, orphanErase orphans id, chan, 0) ∧
      orphanLookup (orphanErase orphans id) id = none) ∧
    (∀ (t d : ℚ) (r : StoreResponse) (rest : Channel) (orphans : OrphanBuffer) (id : Nat),
      orphanLookup orphans id = none → d ≤ t → r.id = id →
      StoreProcessProtocol.poll_for_response id t ((d, r) :: rest) orphans =
        (some r, orphans, rest, d)) ∧
    (∀ (t d e : ℚ) (r : StoreResponse) (rest : Channel) (orphans : OrphanBuffer) (id : Nat),
      d ≤ t → r.id ≠ id →
      StoreProcessProtocol.pollLoop id t ((d, r) :: rest) orphans e =
        StoreProcessProtocol.pollLoop id t rest (orphanInsert orphans r.id r) (e + d) ∧
      orphanLookup (orphanInsert orphans r.id r) r.id = some r) ∧
    (∀ (t da db : ℚ) (a b : Nat) (ra rb : StoreResponse) (orphans : OrphanBuffer)
        (chan2 : Channel),
      ra.id = a → rb.id = b → b ≠ a → da ≤ t → db ≤ t →
      orphanLookup orphans a = none →
      StoreProcessProtocol.poll_for_response a t [(db, rb), (da, ra)] orphans =
        (some ra, orphanInsert orphans b rb, [], db + da) ∧
      StoreProcessProtocol.poll_for_response b t chan2 (orphanInsert orphans b rb) =
        (some rb, orphanErase (orphanInsert orphans b rb) b, chan2, 0)) := by
  refine ⟨?_, ?_, ?_, ?_⟩
  · intro t chan orphans id r h
    exact ⟨by simp [StoreProcessProtocol.poll_for_response, h],
      orphanLookup_erase_self orphans id⟩
  · intro t d r rest orphans id h hd hr
    simp [StoreProcessProtocol.poll_for_response, h, StoreProcessProtocol.pollLoop, hd, hr]
  · intro t d e r rest orphans id hd hr
    exact ⟨by simp [StoreProcessProtocol.pollLoop, hd, hr],
      orphanLookup_insert_self orphans r.id r⟩
  · intro t da db a b ra rb orphans chan2 hra hrb hab hda hdb horph
    constructor
    · have hrba : rb.id ≠ a := by rw [hrb]; exact hab
      simp [StoreProcessProtocol.poll_for_response, horph, StoreProcessProtocol.pollLoop,
        hdb, hrba, hda, hra, hrb]
      exact hab
    · simp [StoreProcessProtocol.poll_for_response, orphanLookup_insert_self]

/-- Witness for C1: worker answers id 2 before id 1; a wait on id 1 returns
response A and buffers response B; the next wait on id 2 returns B from the
buffer with no channel read. -/
theorem c1_id_exact_matching_with_orphan_buffering_witness :
    StoreProcessProtocol.poll_for_response 1 10 [(1, exRespB), (1, exRespA)] [] =
      (some exRespA, orphanInsert [] 2 exRespB, [], 1 + 1) ∧
    StoreProcessProtocol.poll_for_response 2 10 [] (orphanInsert [] 2 exRespB) =
      (some exRespB, orphanErase (orphanInsert [] 2 exRespB) 2, [], 0) :=
  (c1_id_exact_matching_with_orphan_buffering).2.2.2 10 1 1 1 2 exRespA exRespB [] []
    rfl rfl (by decide) (by norm_num) (by norm_num) rfl

/-- C2: a timeout surfaces as a typed failure value, never as an exception:
with the latch down and a live worker, if the orphan buffer has no entry for
the request's id and the worker never sends a response with that id, then
`send_request_get_response` returns (as a normal value, `.ok`) the synthetic
failure response `⟨request.id, false, ""⟩`, its effect trace is exactly one
channel write followed by the timeout warning — no retry write, no raise. -/
theorem c2_timeout_returns_synthetic_failure {Cfg : Type} (s : StoreProcessProtocol Cfg)
    (env : Env) (request : StoreRequest)
    (hshut : s.is_shutdown = false)
    (halive : s.process.alive = true)
    (horph : orphanLookup s.orphaned_responses request.id = none)
    (hnomatch : ∀ p ∈ env.incoming, (p : ℚ × StoreResponse).2.id ≠ request.id) :
    ∃ s2 env2,
      StoreProcessProtocol.send_request_get_response s env request =
        (.ok ({ id := request.id, success := false, data := "" }, s2, env2),
         [Effect.sendBytes request.serialized,
          Effect.logWarn
            "tronstore took longer than 10 seconds to respond to a request, and it was dropped."]) := by
  have hv : StoreProcessProtocol.verify_is_alive s env = (.ok (s, env), []) := by
    simp [StoreProcessProtocol.verify_is_alive, halive]
  have hnone : (StoreProcessProtocol.poll_for_response request.id
      StoreProcessProtocol.POLL_TIMEOUT env.incoming s.orphaned_responses).1 = none := by
    simp only [StoreProcessProtocol.poll_for_response, horph]
    exact pollLoop_none_of_no_match request.id StoreProcessProtocol.POLL_TIMEOUT
      env.incoming s.orphaned_responses 0 hnomatch
  rcases hp : StoreProcessProtocol.poll_for_response request.id
      StoreProcessProtocol.POLL_TIMEOUT env.incoming s.orphaned_responses with
    ⟨res, orphans1, chan1, elapsed⟩
  have hres : res = none := by
    have hfst := congrArg Prod.fst hp
    rw [hnone] at hfst
    exact hfst.symm
  subst hres
  refine ⟨{ s with orphaned_responses := orphans1 },
    { env with incoming := chan1, now := env.now + elapsed }, ?_⟩
  simp only [StoreProcessProtocol.send_request_get_response, hshut, Bool.false_eq_true,
    if_false, hv, hp]
  simp [ResponseFactory.build]

/-- Witness for C2: live worker, empty orphan buffer, two responses arriving
that never match the request's id 1. -/
theorem c2_timeout_returns_synthetic_failure_witness :
    (StoreProcessProtocol.send_request_get_response exStateLive exEnvTwoOrphans exReq).2 =
      [Effect.sendBytes exReq.serialized,
       Effect.logWarn
         "tronstore took longer than 10 seconds to respond to a request, and it was dropped."] ∧
    (StoreProcessProtocol.send_request_get_response exStateLive exEnvTwoOrphans exReq).1.toOption.map
      (fun out => out.1) = some { id := exReq.id, success := false, data := "" } := by
  obtain ⟨s2, env2, h⟩ := c2_timeout_returns_synthetic_failure exStateLive exEnvTwoOrphans exReq
    rfl rfl rfl (by decide)
  rw [h]
  exact ⟨rfl, rfl⟩

/-- C3 counterexample: the polling loop does NOT shrink the timeout budget —
each iteration passes the full constant `POLL_TIMEOUT` to `pipe.poll`.  With
`T = POLL_TIMEOUT = 10` and two non-matching responses each arriving exactly
`T` after the previous read, a wait for id 1 blocks `10 + 10 + 10 = 30 = 3·T`
seconds before returning the synthetic failure: total blocking is not bounded
by `T + ε` (here it even exceeds `T + T`), and it grows with the number of
non-matching responses.  The second conjunct shows this at the level of
`send_request_get_response` via the clock: the wait ends at time 30. -/
theorem c3_counterexample_full_timeout_rearmed :
    StoreProcessProtocol.poll_for_response 1 StoreProcessProtocol.POLL_TIMEOUT
        chanTwoOrphans [] =
      (none,
       [(3, { id := 3, success := true, data := "y" }),
        (2, { id := 2, success := true, data := "x" })], [], 30) ∧
    (StoreProcessProtocol.send_request_get_response exStateLive exEnvTwoOrphans
        exReq).1.toOption.map (fun out => out.2.2.now) = some 30 ∧
    ¬((30 : ℚ) ≤ StoreProcessProtocol.POLL_TIMEOUT + StoreProcessProtocol.POLL_TIMEOUT) := by
  refine ⟨?_, ?_, ?_⟩
  · norm_num [StoreProcessProtocol.poll_for_response, orphanLookup,
      StoreProcessProtocol.pollLoop, chanTwoOrphans, orphanInsert, orphanErase,
      StoreProcessProtocol.POLL_TIMEOUT]
  · norm_num [StoreProcessProtocol.send_request_get_response,
      StoreProcessProtocol.verify_is_alive, StoreProcessProtocol.poll_for_response,
      StoreProcessProtocol.pollLoop, orphanLookup, orphanInsert, orphanErase,
      exStateLive, exEnvTwoOrphans, exAlive, exReq, chanTwoOrphans,
      ResponseFactory.build, Except.toOption, StoreProcessProtocol.POLL_TIMEOUT]
  · norm_num [StoreProcessProtocol.POLL_TIMEOUT]

/-- C3 (amended): the loop polls with the full constant timeout on every
iteration, not with a remaining budget.  If the worker never sends a matching
response and no orphan is buffered for the id, the wait returns `none`; its
total blocking time is bounded by `(k + 1) · timeout` where `k` is the number
of responses on the channel (each non-matching arrival re-arms the timeout),
and only in the case of a completely silent channel is it exactly one
timeout. -/
theorem c3_elapsed_bounded_by_rearmed_polls (id : Nat) (t : ℚ) (chan : Channel)
    (orphans : OrphanBuffer) (ht : 0 ≤ t)
    (horph : orphanLookup orphans id = none)
    (hnomatch : ∀ p ∈ chan, (p : ℚ × StoreResponse).2.id ≠ id) :
    (StoreProcessProtocol.poll_for_response id t chan orphans).1 = none ∧
    (StoreProcessProtocol.poll_for_response id t chan orphans).2.2.2 ≤
      (chan.length + 1 : ℚ) * t ∧
    (chan = [] → (StoreProcessProtocol.poll_for_response id t chan orphans).2.2.2 = t) := by
  refine ⟨?_, ?_, ?_⟩
  · simp only [StoreProcessProtocol.poll_for_response, horph]
    exact pollLoop_none_of_no_match id t chan orphans 0 hnomatch
  · simp only [StoreProcessProtocol.poll_for_response, horph]
    have h := pollLoop_elapsed_le id t ht chan orphans 0
    simpa using h
  · intro hchan
    subst hchan
    simp only [StoreProcessProtocol.poll_for_response, horph]
    have hnil : (StoreProcessProtocol.pollLoop id t [] orphans 0).2.2.2 = 0 + t := rfl
    rw [hnil, zero_add]

/-- Witness for C3's amended bound, at the concrete channel of the
counterexample: the wait misses, and 30 is within `(2 + 1) · 10`. -/
theorem c3_elapsed_bounded_by_rearmed_polls_witness :
    (StoreProcessProtocol.poll_for_response 1 StoreProcessProtocol.POLL_TIMEOUT
        chanTwoOrphans []).1 = none ∧
    (StoreProcessProtocol.poll_for_response 1 StoreProcessProtocol.POLL_TIMEOUT
        chanTwoOrphans []).2.2.2 ≤
      (chanTwoOrphans.length + 1 : ℚ) * StoreProcessProtocol.POLL_TIMEOUT := by
  have h := c3_elapsed_bounded_by_rearmed_polls 1 StoreProcessProtocol.POLL_TIMEOUT
    chanTwoOrphans [] (by norm_num [StoreProcessProtocol.POLL_TIMEOUT]) rfl (by decide)
  exact ⟨h.1, h.2.1⟩

/-- C6: `is_shutdown` is a one-way latch set before any shutdown I/O.  It is
false after `__init__`; `_start_process` and the successful paths of
`_verify_is_alive`, `send_request`, `send_request_get_response` and
`update_config` leave it unchanged; `send_request_shutdown` always leaves it
true; and on the non-short-circuit shutdown path the latch assignment occurs
strictly before the shutdown request is written to the channel (the effect
trace begins `setShutdown :: sendBytes …`). -/
theorem c6_is_shutdown_one_way_latch {Cfg : Type} :
    (∀ (cfg : Cfg) (env : Env), (StoreProcessProtocol.init cfg env).1.is_shutdown = false) ∧
    (∀ (s : StoreProcessProtocol Cfg) (env : Env),
      (StoreProcessProtocol.start_process s env).1.is_shutdown = s.is_shutdown) ∧
    (∀ (s : StoreProcessProtocol Cfg) (env : Env) (s1 : StoreProcessProtocol Cfg) (env1 : Env),
      (StoreProcessProtocol.verify_is_alive s env).1 = .ok (s1, env1) →
        s1.is_shutdown = s.is_shutdown) ∧
    (∀ (s : StoreProcessProtocol Cfg) (env : Env) (request : StoreRequest)
        (s1 : StoreProcessProtocol Cfg) (env1 : Env),
      (StoreProcessProtocol.send_request s env request).1 = .ok (s1, env1) →
        s1.is_shutdown = s.is_shutdown) ∧
    (∀ (s : StoreProcessProtocol Cfg) (env : Env) (request : StoreRequest) (r : StoreResponse)
        (s1 : StoreProcessProtocol Cfg) (env1 : Env),
      (StoreProcessProtocol.send_request_get_response s env request).1 = .ok (r, s1, env1) →
        s1.is_shutdown = s.is_shutdown) ∧
    (∀ (s : StoreProcessProtocol Cfg) (env : Env) (ncfg : Cfg) (request : StoreRequest)
        (s1 : StoreProcessProtocol Cfg) (env1 : Env),
      (StoreProcessProtocol.update_config s env ncfg request).1 = .ok (s1, env1) →
        s1.is_shutdown = s.is_shutdown) ∧
    (∀ (s : StoreProcessProtocol Cfg) (env : Env) (request : StoreRequest),
      (StoreProcessProtocol.send_request_shutdown s env request).1.is_shutdown = true) ∧
    (∀ (s : StoreProcessProtocol Cfg) (env : Env) (request : StoreRequest),
      s.is_shutdown = false → s.process.alive = true →
      ∃ rest, (StoreProcessProtocol.send_request_shutdown s env request).2.2 =
        Effect.setShutdown :: Effect.sendBytes request.serialized :: rest) := by
  refine ⟨fun cfg env => rfl, fun s env => rfl, ?_, ?_, ?_, ?_, ?_, ?_⟩
  · intro s env s1 env1 h
    exact (verify_is_alive_ok_frame s env s1 env1 h).2.2
  · intro s env request s1 env1 h
    exact send_request_ok_frame s env request s1 env1 h
  · intro s env request r s1 env1 h
    exact send_request_get_response_ok_frame s env request r s1 env1 h
  · intro s env ncfg request s1 env1 h
    simp only [StoreProcessProtocol.update_config] at h
    rcases hsr : StoreProcessProtocol.send_request s env request with ⟨res, eff⟩
    rw [hsr] at h
    cases res with
    | error e => simp at h
    | ok p =>
      obtain ⟨s2, env2⟩ := p
      simp only [Except.ok.injEq, Prod.mk.injEq] at h
      obtain ⟨h1, h2⟩ := h
      rw [← h1]
      exact send_request_ok_frame s env request s2 env2 (by rw [hsr])
  · intro s env request
    by_cases hcond : (s.is_shutdown || !s.process.alive) = true
    · simp [StoreProcessProtocol.send_request_shutdown, hcond]
    · simp only [StoreProcessProtocol.send_request_shutdown, hcond, Bool.false_eq_true, if_false]
  · intro s env request hs ha
    have hcond : (s.is_shutdown || !s.process.alive) = false := by simp [hs, ha]
    simp only [StoreProcessProtocol.send_request_shutdown, hcond, Bool.false_eq_true, if_false]
    rcases hp : StoreProcessProtocol.poll_for_response request.id
        StoreProcessProtocol.SHUTDOWN_TIMEOUT env.incoming s.orphaned_responses with
      ⟨pres, o1, c1, el⟩
    cases pres with
    | none =>
      exact ⟨[Effect.logError "tronstore failed to shut down cleanly.",
        Effect.closePipe, Effect.kill s.process.pid], by simp⟩
    | some resp =>
      by_cases hsucc : resp.success
      · exact ⟨[Effect.closePipe, Effect.kill s.process.pid], by simp [hsucc]⟩
      · exact ⟨[Effect.logError "tronstore failed to shut down cleanly.",
          Effect.closePipe, Effect.kill s.process.pid], by simp [hsucc]⟩

/-- Witness for C6 at concrete inputs: the latch starts false, survives a
fire-and-forget send unchanged, is true after shutdown, and the shutdown
trace latches before writing. -/
theorem c6_is_shutdown_one_way_latch_witness :
    (StoreProcessProtocol.init (0 : Nat) exEnv).1.is_shutdown = false ∧
    exStateLive.is_shutdown = false ∧
    (StoreProcessProtocol.send_request_shutdown exStateLive exEnv exReq).1.is_shutdown = true ∧
    (∃ rest, (StoreProcessProtocol.send_request_shutdown exStateLive exEnv exReq).2.2 =
      Effect.setShutdown :: Effect.sendBytes exReq.serialized :: rest) := by
  refine ⟨(@c6_is_shutdown_one_way_latch Nat).1 0 exEnv, rfl, ?_, ?_⟩
  · exact (@c6_is_shutdown_one_way_latch Nat).2.2.2.2.2.2.1 exStateLive exEnv exReq
  · exact (@c6_is_shutdown_one_way_latch Nat).2.2.2.2.2.2.2 exStateLive exEnv exReq
      rfl rfl

/-- C7: shutdown always returns and leaves the worker dead.  If the latch is
already set or the worker is already dead, `send_request_shutdown`
short-circuits: it closes the pipe, sets the latch, changes nothing else and
performs no further I/O (trace `[closePipe]`).  Otherwise it writes the
shutdown request, waits at most one `SHUTDOWN_TIMEOUT` per received message,
logs (never raises — the operation is a total function into plain tuples) on
a missing or unsuccessful response, and unconditionally closes the pipe and
kills the worker, which is not alive afterwards.  Under the reachability
invariant "latched implies dead", the worker is never alive after shutdown
returns. -/
theorem c7_shutdown_returns_and_kills {Cfg : Type} (s : StoreProcessProtocol Cfg)
    (env : Env) (request : StoreRequest) :
    (s.is_shutdown = true ∨ s.process.alive = false →
      StoreProcessProtocol.send_request_shutdown s env request =
        ({ s with pipe_open := false, is_shutdown := true }, env, [Effect.closePipe])) ∧
    (s.is_shutdown = false → s.process.alive = true →
      ((StoreProcessProtocol.send_request_shutdown s env request).1.process.alive = false ∧
       (StoreProcessProtocol.send_request_shutdown s env request).1.pipe_open = false ∧
       (StoreProcessProtocol.send_request_shutdown s env request).2.1.now ≤
         env.now + (env.incoming.length + 1 : ℚ) * StoreProcessProtocol.SHUTDOWN_TIMEOUT ∧
       ∃ mid, (StoreProcessProtocol.send_request_shutdown s env request).2.2 =
           Effect.setShutdown :: Effect.sendBytes request.serialized ::
             (mid ++ [Effect.closePipe, Effect.kill s.process.pid]) ∧
         (mid = [] ∨ mid = [Effect.logError "tronstore failed to shut down cleanly."]))) ∧
    ((s.is_shutdown = true → s.process.alive = false) →
      (StoreProcessProtocol.send_request_shutdown s env request).1.process.alive = false) := by
  refine ⟨?_, ?_, ?_⟩
  · intro hsc
    have hcond : (s.is_shutdown || !s.process.alive) = true := by
      rcases hsc with h1 | h1 <;> simp [h1]
    simp [StoreProcessProtocol.send_request_shutdown, hcond]
  · intro hs ha
    have hcond : (s.is_shutdown || !s.process.alive) = false := by simp [hs, ha]
    have hel := poll_for_response_elapsed_le request.id StoreProcessProtocol.SHUTDOWN_TIMEOUT
      env.incoming s.orphaned_responses (by norm_num [StoreProcessProtocol.SHUTDOWN_TIMEOUT])
    simp only [StoreProcessProtocol.send_request_shutdown, hcond, Bool.false_eq_true, if_false]
    rcases hp : StoreProcessProtocol.poll_for_response request.id
        StoreProcessProtocol.SHUTDOWN_TIMEOUT env.incoming s.orphaned_responses with
      ⟨pres, o1, c1, el⟩
    rw [hp] at hel
    refine ⟨by trivial, by trivial, ?_, ?_⟩
    · have hle : el ≤ (env.incoming.length + 1 : ℚ) * StoreProcessProtocol.SHUTDOWN_TIMEOUT := by
        simpa using hel
      simp only
      linarith
    · cases pres with
      | none =>
        exact ⟨[Effect.logError "tronstore failed to shut down cleanly."], by simp, Or.inr rfl⟩
      | some resp =>
        by_cases hsucc : resp.success
        · exact ⟨[], by simp [hsucc], Or.inl rfl⟩
        · exact ⟨[Effect.logError "tronstore failed to shut down cleanly."],
            by simp [hsucc], Or.inr rfl⟩
  · intro himp
    by_cases hs : s.is_shutdown
    · have hdead := himp hs
      have hcond : (s.is_shutdown || !s.process.alive) = true := by simp [hs]
      simp [StoreProcessProtocol.send_request_shutdown, hcond, hdead]
    · by_cases ha : s.process.alive
      · have hcond : (s.is_shutdown || !s.process.alive) = false := by simp [hs, ha]
        simp only [StoreProcessProtocol.send_request_shutdown, hcond, Bool.false_eq_true,
          if_false]
      · have hcond : (s.is_shutdown || !s.process.alive) = true := by simp [ha]
        simp only [StoreProcessProtocol.send_request_shutdown, hcond, if_true]
        simpa using ha

/-- Witness for C7: a live un-latched worker is killed by shutdown; an
already-latched state short-circuits with only the pipe close. -/
theorem c7_shutdown_returns_and_kills_witness :
    ((StoreProcessProtocol.send_request_shutdown exStateLive exEnv exReq).1.process.alive =
        false ∧
     (StoreProcessProtocol.send_request_shutdown exStateLive exEnv exReq).1.pipe_open = false) ∧
    StoreProcessProtocol.send_request_shutdown exStateDead exEnv exReq =
      ({ exStateDead with pipe_open := false, is_shutdown := true }, exEnv,
       [Effect.closePipe]) := by
  constructor
  · have h := (c7_shutdown_returns_and_kills exStateLive exEnv exReq).2.1 rfl rfl
    exact ⟨h.1, h.2.1⟩
  · exact (c7_shutdown_returns_and_kills exStateDead exEnv exReq).1 (Or.inr rfl)

/-- C10: chained context lookup order and fall-through.  With the four
attempt results named `r1 = base[name]`, `r2 = base.<attr path>`,
`r3 = next[name]`, `r4 = next.<attr path>`: the first attempt to succeed, in
that order, provides the value; `KeyError`, `TypeError` and `AttributeError`
(the swallowed set) cause fall-through; when all four attempts fail with
swallowed errors, `KeyError(name)` is raised; and `get(name, default)`
returns the default exactly when `__getitem__` raises a `KeyError`, passing
every other outcome through. -/
theorem c10_command_context_lookup_order {V : Type} (c : CommandContext V) (name : String)
    (r1 r2 r3 r4 : Except PyErr V)
    (h1 : c.base.getItem name = r1) (h2 : c.base.getAttrPath name = r2)
    (h3 : c.next.getItem name = r3) (h4 : c.next.getAttrPath name = r4) :
    (∀ v, r1 = .ok v → c.getitem name = .ok v) ∧
    (∀ e1 v, r1 = .error e1 → e1.swallowedByGetitem = true → r2 = .ok v →
      c.getitem name = .ok v) ∧
    (∀ e1 e2 v, r1 = .error e1 → e1.swallowedByGetitem = true →
      r2 = .error e2 → e2.swallowedByGetitem = true → r3 = .ok v →
      c.getitem name = .ok v) ∧
    (∀ e1 e2 e3 v, r1 = .error e1 → e1.swallowedByGetitem = true →
      r2 = .error e2 → e2.swallowedByGetitem = true →
      r3 = .error e3 → e3.swallowedByGetitem = true → r4 = .ok v →
      c.getitem name = .ok v) ∧
    (∀ e1 e2 e3 e4, r1 = .error e1 → e1.swallowedByGetitem = true →
      r2 = .error e2 → e2.swallowedByGetitem = true →
      r3 = .error e3 → e3.swallowedByGetitem = true →
      r4 = .error e4 → e4.swallowedByGetitem = true →
      c.getitem name = .error (.keyError name)) ∧
    (∀ e1, r1 = .error e1 → e1.swallowedByGetitem = false →
      c.getitem name = .error e1) ∧
    (∀ d, c.get name d =
      match c.getitem name with
      | .error (.keyError _) => .ok d
      | r => r) := by
  refine ⟨?_, ?_, ?_, ?_, ?_, ?_, fun d => rfl⟩
  · intro v hv
    simp [CommandContext.getitem, h1, h2, h3, h4, hv, firstHit]
  · intro e1 v he1 hs1 hv
    simp [CommandContext.getitem, h1, h2, h3, h4, he1, hs1, hv, firstHit]
  · intro e1 e2 v he1 hs1 he2 hs2 hv
    simp [CommandContext.getitem, h1, h2, h3, h4, he1, hs1, he2, hs2, hv, firstHit]
  · intro e1 e2 e3 v he1 hs1 he2 hs2 he3 hs3 hv
    simp [CommandContext.getitem, h1, h2, h3, h4, he1, hs1, he2, hs2, he3, hs3, hv, firstHit]
  · intro e1 e2 e3 e4 he1 hs1 he2 hs2 he3 hs3 he4 hs4
    simp [CommandContext.getitem, h1, h2, h3, h4, he1, hs1, he2, hs2, he3, hs3, he4, hs4,
      firstHit]
  · intro e1 he1 hs1
    simp [CommandContext.getitem, h1, h2, h3, h4, he1, hs1, firstHit]

/-- Witness for C10: a context whose base swallows both attempts and whose
next object is unsubscriptable but carries the attribute resolves to the
attribute value (fourth attempt); a context where all four attempts fail
with swallowed errors makes `get` return the default. -/
theorem c10_command_context_lookup_order_witness :
    CommandContext.getitem { base := exObjFail, next := exObjAttr } "k" = .ok 22 ∧
    CommandContext.get { base := exObjFail, next := exObjFail } "k" (99 : Nat) = .ok 99 := by
  constructor
  · exact (c10_command_context_lookup_order { base := exObjFail, next := exObjAttr } "k"
      _ _ _ _ rfl rfl rfl rfl).2.2.2.1 (.keyError "k") .attributeError .typeError 22
      rfl rfl rfl rfl rfl rfl rfl
  · have h := c10_command_context_lookup_order
      { base := exObjFail, next := exObjFail } "k" _ _ _ _ rfl rfl rfl rfl
    have hki := h.2.2.2.2.1 (.keyError "k") .attributeError (.keyError "k") .attributeError
      rfl rfl rfl rfl rfl rfl rfl rfl
    have hg := h.2.2.2.2.2.2 99
    rw [hki] at hg
    exact hg
